import Mathlib

/-!
Shallow embedding of `src/vendor/eirrepo/sdk/DynamicTypeSystem.h` (the Eir SDK
dynamic type system).  Descriptor inheritance chains are modelled as lists of
levels (leaf first, root last), mirroring the `inheritsFrom` pointer chain of
`typeInfoBase`; per-chain reference counts are a parallel list of naturals.
Object-lifecycle operations record an event trace (allocations, payload and
plugin constructor/destructor invocations) so that unwind properties can be
stated.  The C++ `rtti_assert` is modelled as an `InvariantBreach` error and
C++ exceptions as `Except` errors.  The inner plugin registry
(`AnonymousPluginStructRegistry`, an external collaborator whose code is not
in this repository) is modelled from the spec, section 6: a list of plugin
records whose block operations run in registration order and whose
`construct_block` unwinds within itself on partial failure.
-/

namespace DTS

/-- Error taxonomy of the type system: exception classes thrown by
`DynamicTypeSystem` plus the modelled fatal assertion. -/
inductive DtsError where
  | AbstractConstruction
  | NameConflict
  | UndefinedMethod
  | PayloadConstruction
  | InvariantBreach
deriving DecidableEq, Repr

/-- Embedding of `typeInterface`: the payload vtable of one descriptor.
`constructErr`/`copyConstructErr` record which exception (if any) the
`Construct`/`CopyConstruct` virtual throws for the construction parameters in
use; `typeSize`/`typeSizeByObject` are the results of `GetTypeSize` and
`GetTypeSizeByObject` (pure and total per the vtable contract). -/
structure TypeInterface where
  constructErr : Option DtsError
  copyConstructErr : Option DtsError
  typeSize : Nat
  typeSizeByObject : Nat
deriving DecidableEq, Repr

/-- Modelled from the spec: one plugin record of the inner plugin registry
(`AnonymousPluginStructRegistry`, `PluginFactory.h`, not under `src/`),
following the spec's section 6 contract: a plugin has a block size and
fallible construct/assign hooks, whose outcomes for the scenario at hand are
recorded as booleans. -/
structure Plugin where
  size : Nat
  constructOk : Bool
  assignOk : Bool
deriving DecidableEq, Repr

/-- One level of a descriptor chain: the payload vtable and the plugin
registry contents (`structRegistry`) of one `typeInfoBase`. -/
structure TypeLevel where
  tInterface : TypeInterface
  plugins : List Plugin
deriving DecidableEq, Repr

/-- A descriptor is identified with its inheritance chain, leaf first and root
last; the tail of the list is the `inheritsFrom` chain. -/
abbrev TypeChain := List TypeLevel

/-- Size of the `GenericRTTI` header struct (one `type_meta` pointer, release
build) prefixed to every constructed object. -/
def sizeofGenericRTTI : Nat := 8

/-- `GetObjectFromTypeStruct`: the language object starts right after the
`GenericRTTI` header (`rtObj + 1` in C++ pointer arithmetic). Addresses are
modelled as byte offsets. -/
def GetObjectFromTypeStruct (rtObj : Nat) : Nat :=
  rtObj + sizeofGenericRTTI

/-- `GetTypeStructFromObject`: step back over the header
(`(GenericRTTI*)langObj - 1`). -/
def GetTypeStructFromObject (langObj : Nat) : Nat :=
  langObj - sizeofGenericRTTI

/-- `IsSameType`: pointer equality of descriptors, modelled as equality of
chains. -/
def IsSameType (firstType secondType : TypeChain) : Bool :=
  decide (firstType = secondType)

/-- `IsTypeInheritingFrom`: true when `baseClass` equals `subClass` or appears
on `subClass`'s `inheritsFrom` chain. -/
def IsTypeInheritingFrom (baseClass : TypeChain) : TypeChain → Bool
  | [] => IsSameType baseClass []
  | l :: rest =>
    if IsSameType baseClass (l :: rest) then true
    else if rest.isEmpty then false
    else IsTypeInheritingFrom baseClass rest

/-- Modelled from the spec: the registry's `GetPluginSizeByRuntime`
(`size_fixed` in the spec's section 6 registry contract), the total bytes
reserved for one descriptor's plugin block — the sum of the registered plugin
sizes. -/
def pluginBlockSize (plugins : List Plugin) : Nat :=
  (plugins.map (fun p => p.size)).sum

/-- `GetTypePluginSize`: own plugin-block size plus, recursively, the sizes of
all inherited levels. -/
def GetTypePluginSize : TypeChain → Nat
  | [] => 0
  | l :: rest => pluginBlockSize l.plugins + GetTypePluginSize rest

/-- `GetTypeStructSize(sysPtr, typeInfo, construct_params)`: payload size from
`GetTypeSize`; when nonzero, add the header and the plugin sizes of the whole
chain; when zero, return zero (unconstructible). -/
def GetTypeStructSize : TypeChain → Nat
  | [] => 0
  | l :: rest =>
    let objMemSize := l.tInterface.typeSize
    if objMemSize ≠ 0 then objMemSize + sizeofGenericRTTI + GetTypePluginSize (l :: rest)
    else objMemSize

/-- `GetTypeStructSize(sysPtr, rtObj)`: same as the by-parameters query but the
payload size comes from `GetTypeSizeByObject` and plugin sizes from the
per-object registry query (identical to the fixed size, no conditional
plugins). -/
def GetTypeStructSizeByObject : TypeChain → Nat
  | [] => 0
  | l :: rest =>
    let objMemSize := l.tInterface.typeSizeByObject
    if objMemSize ≠ 0 then objMemSize + sizeofGenericRTTI + GetTypePluginSize (l :: rest)
    else objMemSize

/-- Events recorded by the lifecycle operations.  A plugin is identified by
its level (distance of the owning descriptor from the root of the chain) and
its registration index within that level's block. -/
inductive Event where
  | alloc (size : Nat)
  | free
  | payloadConstruct
  | payloadDestruct
  | pluginConstruct (level idx : Nat)
  | pluginDestruct (level idx : Nat)
  | pluginAssign (level idx : Nat)
deriving DecidableEq, Repr

/-- `ReferenceTypeInfo`: increment the descriptor's `refCount`, then recurse
into the inherited class.  The reference counts of a chain are the parallel
list, leaf first. -/
def ReferenceTypeInfo : List Nat → List Nat
  | [] => []
  | r :: rest => (r + 1) :: ReferenceTypeInfo rest

/-- `DereferenceTypeInfo`: dereference the inherited chain, then decrement the
descriptor's own `refCount`. -/
def DereferenceTypeInfo : List Nat → List Nat
  | [] => []
  | r :: rest => (r - 1) :: DereferenceTypeInfo rest

/-- Modelled from the spec: the registry's `ConstructPluginBlock` constructs
every registered plugin in registration order and, when plugin `i` fails,
destructs plugins `i-1 … 0` in reverse order before reporting failure
(`construct_block must unwind within itself on partial failure`).  `i` is the
registration index of the first plugin of `ps`. -/
def ConstructPluginBlockAux (lvl : Nat) : Nat → List Plugin → Bool × List Event
  | _, [] => (true, [])
  | i, p :: rest =>
    if p.constructOk then
      let r := ConstructPluginBlockAux lvl (i + 1) rest
      if r.1 then (true, Event.pluginConstruct lvl i :: r.2)
      else (false, Event.pluginConstruct lvl i :: r.2 ++ [Event.pluginDestruct lvl i])
    else (false, [])

/-- The registry's bulk plugin construction over one level's block. -/
def ConstructPluginBlock (lvl : Nat) (plugins : List Plugin) : Bool × List Event :=
  ConstructPluginBlockAux lvl 0 plugins

/-- Modelled from the spec: the registry's `DestroyPluginBlock` destructs the
block's plugins in inverse registration order. -/
def DestroyPluginBlock (lvl : Nat) (plugins : List Plugin) : List Event :=
  ((List.range plugins.length).reverse).map (fun i => Event.pluginDestruct lvl i)

/-- `DestructPlugins`: destroy the descriptor's own plugin block, then recurse
into the inherited class (leaf first). -/
def DestructPlugins : TypeChain → List Event
  | [] => []
  | l :: rest => DestroyPluginBlock rest.length l.plugins ++ DestructPlugins rest

/-- `ConstructPlugins`: construct the inherited classes' plugins first (root
first); on success construct the own block; if the own block fails (it has
already unwound internally), destruct the inherited levels leaf first. -/
def ConstructPlugins : TypeChain → Bool × List Event
  | [] => (true, [])
  | l :: rest =>
    let pr := ConstructPlugins rest
    if pr.1 then
      let r := ConstructPluginBlock rest.length l.plugins
      if r.1 then (true, pr.2 ++ r.2)
      else (false, pr.2 ++ r.2 ++ DestructPlugins rest)
    else (false, pr.2)

/-- Modelled from the spec: the registry's `AssignPluginBlock` invokes each
plugin's `assign` in registration order and stops at the first failure. -/
def AssignPluginBlockAux (lvl : Nat) : Nat → List Plugin → Bool × List Event
  | _, [] => (true, [])
  | i, p :: rest =>
    if p.assignOk then
      let r := AssignPluginBlockAux lvl (i + 1) rest
      (r.1, Event.pluginAssign lvl i :: r.2)
    else (false, [Event.pluginAssign lvl i])

/-- `AssignPlugins`: assign the inherited levels first (root first) and bail
on any failure; assignment failure performs no unwinding of its own. -/
def AssignPlugins : TypeChain → Bool × List Event
  | [] => (true, [])
  | l :: rest =>
    let pr := AssignPlugins rest
    if pr.1 then
      let r := AssignPluginBlockAux rest.length 0 l.plugins
      (r.1, pr.2 ++ r.2)
    else (false, pr.2)

/-- Result of a placement operation: whether a non-null object pointer was
returned, the updated reference counts of the chain, and the event trace. -/
structure PlaceResult where
  obj : Bool
  refs : List Nat
  events : List Event
deriving DecidableEq, Repr

/-- `ConstructPlacement`: reference the chain, write the header, attempt the
payload constructor (an exception is caught and leaves a null object), then
construct the plugins; on plugin failure destruct the payload; dereference
when no object is produced. -/
def ConstructPlacement (l : TypeLevel) (anc : TypeChain) (refs : List Nat) : PlaceResult :=
  let refs1 := ReferenceTypeInfo refs
  match l.tInterface.constructErr with
  | some _ => { obj := false, refs := DereferenceTypeInfo refs1, events := [] }
  | none =>
    let cp := ConstructPlugins (l :: anc)
    if cp.1 then
      { obj := true, refs := refs1, events := Event.payloadConstruct :: cp.2 }
    else
      { obj := false, refs := DereferenceTypeInfo refs1,
        events := Event.payloadConstruct :: cp.2 ++ [Event.payloadDestruct] }

/-- Result of a heap lifecycle operation.  `Construct` and `Clone` return
`Except` so that propagation of an exception to the caller is expressible;
the model shows on which paths exceptions are in fact caught. -/
structure ConstructResult where
  obj : Bool
  refs : List Nat
  events : List Event
deriving DecidableEq, Repr

/-- `Construct`: reference the chain, compute the struct size (zero means
unconstructible), allocate (`allocOk` is the allocator's outcome), run
`ConstructPlacement`, free the memory when it fails, and dereference the
outer reference. -/
def Construct (allocOk : Bool) (l : TypeLevel) (anc : TypeChain) (refs : List Nat) :
    Except DtsError ConstructResult :=
  let refs1 := ReferenceTypeInfo refs
  let objMemSize := GetTypeStructSize (l :: anc)
  if objMemSize ≠ 0 then
    if allocOk then
      let r := ConstructPlacement l anc refs1
      if r.obj then
        Except.ok { obj := true, refs := DereferenceTypeInfo r.refs,
                    events := Event.alloc objMemSize :: r.events }
      else
        Except.ok { obj := false, refs := DereferenceTypeInfo r.refs,
                    events := Event.alloc objMemSize :: (r.events ++ [Event.free]) }
    else Except.ok { obj := false, refs := DereferenceTypeInfo refs1, events := [] }
  else Except.ok { obj := false, refs := DereferenceTypeInfo refs1, events := [] }

/-- `ClonePlacement`: like `ConstructPlacement` with the copy constructor, and
after successful plugin construction the plugins are assigned from the source;
on assignment failure only the payload is destructed (the code calls no
`DestructPlugins` on that path). -/
def ClonePlacement (l : TypeLevel) (anc : TypeChain) (refs : List Nat) : PlaceResult :=
  let refs1 := ReferenceTypeInfo refs
  match l.tInterface.copyConstructErr with
  | some _ => { obj := false, refs := DereferenceTypeInfo refs1, events := [] }
  | none =>
    let cp := ConstructPlugins (l :: anc)
    if cp.1 then
      let ap := AssignPlugins (l :: anc)
      if ap.1 then
        { obj := true, refs := refs1, events := Event.payloadConstruct :: cp.2 ++ ap.2 }
      else
        { obj := false, refs := DereferenceTypeInfo refs1,
          events := Event.payloadConstruct :: cp.2 ++ ap.2 ++ [Event.payloadDestruct] }
    else
      { obj := false, refs := DereferenceTypeInfo refs1,
        events := Event.payloadConstruct :: cp.2 ++ [Event.payloadDestruct] }

/-- `Clone`: size of the source object, allocation, `ClonePlacement`, freeing
the memory on failure. -/
def Clone (allocOk : Bool) (l : TypeLevel) (anc : TypeChain) (refs : List Nat) :
    Except DtsError ConstructResult :=
  let objMemSize := GetTypeStructSizeByObject (l :: anc)
  if objMemSize ≠ 0 then
    if allocOk then
      let r := ClonePlacement l anc refs
      if r.obj then
        Except.ok { obj := true, refs := r.refs, events := Event.alloc objMemSize :: r.events }
      else
        Except.ok { obj := false, refs := r.refs,
                    events := Event.alloc objMemSize :: (r.events ++ [Event.free]) }
    else Except.ok { obj := false, refs := refs, events := [] }
  else Except.ok { obj := false, refs := refs, events := [] }

/-- Result of `DestroyPlacement`/`Destroy`. -/
structure DestroyResult where
  refs : List Nat
  events : List Event
deriving DecidableEq, Repr

/-- `DestroyPlacement`: destruct all plugins leaf first, destruct the payload,
dereference the chain. -/
def DestroyPlacement (l : TypeLevel) (anc : TypeChain) (refs : List Nat) : DestroyResult :=
  { refs := DereferenceTypeInfo refs,
    events := DestructPlugins (l :: anc) ++ [Event.payloadDestruct] }

/-- `Destroy`: `DestroyPlacement` followed by freeing the memory. -/
def Destroy (l : TypeLevel) (anc : TypeChain) (refs : List Nat) : DestroyResult :=
  let r := DestroyPlacement l anc refs
  { refs := r.refs, events := r.events ++ [Event.free] }

/-- The payload vtable produced by `RegisterAbstractType`: `Construct` and
`CopyConstruct` throw `abstraction_construction_exception`, `GetTypeSize`
reports `sizeof(structType)` and `GetTypeSizeByObject` zero. -/
def abstractTypeInterface (structSize : Nat) : TypeInterface :=
  { constructErr := some DtsError.AbstractConstruction,
    copyConstructErr := some DtsError.AbstractConstruction,
    typeSize := structSize,
    typeSizeByObject := 0 }

/-- Plugin-constructor invocations recorded in a trace, in order. -/
def constructsIn (evs : List Event) : List (Nat × Nat) :=
  evs.filterMap (fun e => match e with
    | Event.pluginConstruct l i => some (l, i)
    | _ => none)

/-- Plugin-destructor invocations recorded in a trace, in order. -/
def destructsIn (evs : List Event) : List (Nat × Nat) :=
  evs.filterMap (fun e => match e with
    | Event.pluginDestruct l i => some (l, i)
    | _ => none)

/-- Number of allocations in a trace. -/
def allocCount (evs : List Event) : Nat :=
  evs.countP (fun e => match e with
    | Event.alloc _ => true
    | _ => false)

/-- Number of frees in a trace. -/
def freeCount (evs : List Event) : Nat :=
  evs.countP (fun e => match e with
    | Event.free => true
    | _ => false)

/-!
Registry-level model: the global list `registeredTypes` of descriptors with
their names and `inheritsFrom` links.  Pointer identity of `typeInfoBase*` is
modelled by a numeric id; a null pointer is `none`.  Plugin offsets returned
by the registry are modelled from the spec as opaque registration indices.
-/

/-- One registered descriptor as stored on the global list: id (pointer
identity), `name`, `inheritsFrom`, `refCount`, `inheritanceCount` and the
plugin registry contents (sizes of the registered plugins, in registration
order). -/
structure TypeEntry where
  id : Nat
  name : List Char
  parent : Option Nat
  refCount : Nat
  inheritanceCount : Nat
  structRegistry : List Nat
deriving DecidableEq, Repr

/-- The type system's global state: the `registeredTypes` list (most recently
inserted first, as `LIST_INSERT` inserts at the list head) and the next fresh
descriptor id. -/
structure Registry where
  types : List TypeEntry
  nextId : Nat
deriving DecidableEq, Repr

/-- `FindTypeInfoNolock`: scan the global list for a descriptor whose
`inheritsFrom` equals `baseType` and whose name equals `typeName`; return its
identity. -/
def FindTypeInfoNolock (types : List TypeEntry) (typeName : List Char)
    (baseType : Option Nat) : Option Nat :=
  (types.find? (fun item => item.parent == baseType && item.name == typeName)).map
    (fun e => e.id)

/-- Dereference a descriptor pointer: look its id up on the global list. -/
def lookupType (reg : Registry) (tid : Nat) : Option TypeEntry :=
  reg.types.find? (fun e => e.id == tid)

/-- `IsImmutable`: a descriptor is immutable while its `refCount` is
nonzero. -/
def IsImmutable (e : TypeEntry) : Bool :=
  e.refCount != 0

/-- Apply an update to the entry with the given id. -/
def updateEntry (reg : Registry) (tid : Nat) (f : TypeEntry → TypeEntry) : Registry :=
  { reg with types := reg.types.map (fun e => if e.id == tid then f e else e) }

/-- `IsTypeInheritingFromNolock` on the id graph: walk `subId`'s
`inheritsFrom` chain looking for `baseId`.  The chain of a well-formed
registry is acyclic and shorter than the list, so the list length serves as
fuel. -/
def IsTypeInheritingFromNolockIds (types : List TypeEntry) :
    Nat → Nat → Nat → Bool
  | 0, _, _ => false
  | fuel + 1, baseId, subId =>
    if baseId == subId then true
    else
      match (types.find? (fun e => e.id == subId)).bind (fun e => e.parent) with
      | some p => IsTypeInheritingFromNolockIds types fuel baseId p
      | none => false

/-- Name-collision test of `SetTypeInfoInheritingClass`: a different
descriptor with `subClass`'s name already under the proposed parent. -/
def conflictsWith (reg : Registry) (subId : Nat) (typeName : List Char)
    (inheritedId : Option Nat) : Bool :=
  match inheritedId with
  | none => false
  | some _ =>
    match FindTypeInfoNolock reg.types typeName inheritedId with
    | some existId => existId != subId
    | none => false

/-- Cycle test of `SetTypeInfoInheritingClass`: the proposed parent already
inherits from `subId`. -/
def cycleWith (reg : Registry) (subId : Nat) (inheritedId : Option Nat) : Bool :=
  match inheritedId with
  | none => false
  | some i => IsTypeInheritingFromNolockIds reg.types reg.types.length subId i

/-- State update of a re-parenting that passed all checks: decrement the old
parent's `inheritanceCount`, set `inheritsFrom`, increment the new parent's
`inheritanceCount`. -/
def setParentUpdate (reg : Registry) (subId : Nat) (prev newParent : Option Nat) : Registry :=
  let reg1 := match prev with
    | some p => updateEntry reg p (fun e => { e with inheritanceCount := e.inheritanceCount - 1 })
    | none => reg
  let reg2 := updateEntry reg1 subId (fun e => { e with parent := newParent })
  match newParent with
  | some p => updateEntry reg2 p (fun e => { e with inheritanceCount := e.inheritanceCount + 1 })
  | none => reg2

/-- `SetTypeInfoInheritingClass`: assert the subclass is not immutable
(`rtti_assert`, modelled as `InvariantBreach`), reject a sibling name
collision under the new parent, skip when the parent is unchanged, assert
acyclicity, then update the links and counters. -/
def SetTypeInfoInheritingClass (reg : Registry) (subId : Nat)
    (inheritedId : Option Nat) : Except DtsError Registry :=
  match lookupType reg subId with
  | none => Except.error DtsError.InvariantBreach
  | some subClass =>
    if IsImmutable subClass then Except.error DtsError.InvariantBreach
    else if conflictsWith reg subId subClass.name inheritedId then
      Except.error DtsError.NameConflict
    else if subClass.parent == inheritedId then Except.ok reg
    else if cycleWith reg subId inheritedId then Except.error DtsError.InvariantBreach
    else Except.ok (setParentUpdate reg subId subClass.parent inheritedId)

/-- `SetupTypeInfoBase`: under the global lock, fail with `NameConflict` when
a sibling with this name already exists under `inheritsFrom`; otherwise
initialize the descriptor's fields, insert it at the head of the global list
and set the inheritance link.  An exception from the inheritance step removes
the descriptor from the list again (the caller observes the original
registry). -/
def SetupTypeInfoBase (reg : Registry) (newId : Nat) (typeName : List Char)
    (inheritsFrom : Option Nat) : Except DtsError Registry :=
  match FindTypeInfoNolock reg.types typeName inheritsFrom with
  | some _ => Except.error DtsError.NameConflict
  | none =>
    let tInfo : TypeEntry :=
      { id := newId, name := typeName, parent := none, refCount := 0,
        inheritanceCount := 0, structRegistry := [] }
    let reg1 : Registry := { reg with types := tInfo :: reg.types }
    match SetTypeInfoInheritingClass reg1 newId inheritsFrom with
    | Except.ok reg2 => Except.ok reg2
    | Except.error e => Except.error e

/-- Allocator events of the registration path: allocation and release of a
descriptor struct. -/
inductive AEvent where
  | allocInfo (id : Nat)
  | freeInfo (id : Nat)
deriving DecidableEq, Repr

/-- `RegisterType`: allocate a fresh descriptor struct, run
`SetupTypeInfoBase`; on an exception free the partially built descriptor and
propagate the error (the registry is left as it was). -/
def RegisterType (reg : Registry) (typeName : List Char) (inheritsFrom : Option Nat) :
    Except DtsError Nat × Registry × List AEvent :=
  let newId := reg.nextId
  match SetupTypeInfoBase reg newId typeName inheritsFrom with
  | Except.ok reg2 =>
    (Except.ok newId, { reg2 with nextId := newId + 1 }, [AEvent.allocInfo newId])
  | Except.error e =>
    (Except.error e, reg, [AEvent.allocInfo newId, AEvent.freeInfo newId])

/-- The `type_iterator` yields every entry of the global list, in list
order, under the global read lock. -/
def GetTypeIterator (reg : Registry) : List TypeEntry :=
  reg.types

/-- `RegisterPlugin`: assert the target descriptor is not immutable
(`rtti_assert`, modelled as `InvariantBreach`), then register the plugin with
the descriptor's plugin registry.  Modelled from the spec: the returned
plugin offset is an opaque token, modelled as the registration index. -/
def RegisterPlugin (reg : Registry) (pluginSize : Nat) (typeId : Nat) :
    Except DtsError (Registry × Nat) :=
  match lookupType reg typeId with
  | none => Except.error DtsError.InvariantBreach
  | some e =>
    if IsImmutable e then Except.error DtsError.InvariantBreach
    else
      Except.ok
        (updateEntry reg typeId
          (fun en => { en with structRegistry := en.structRegistry ++ [pluginSize] }),
         e.structRegistry.length)

/-- `UnregisterPlugin`: assert the descriptor is not immutable, then revoke
the plugin.  Modelled from the spec: revocation removes the plugin the opaque
token (registration index) denotes. -/
def UnregisterPlugin (reg : Registry) (typeId : Nat) (pluginOffset : Nat) :
    Except DtsError Registry :=
  match lookupType reg typeId with
  | none => Except.error DtsError.InvariantBreach
  | some e =>
    if IsImmutable e then Except.error DtsError.InvariantBreach
    else
      Except.ok
        (updateEntry reg typeId
          (fun en => { en with structRegistry := en.structRegistry.eraseIdx pluginOffset }))

/-!
Type path resolution: `type_resolution_iterator` splits the path on the
literal two-byte delimiter `::`; `ResolveTypeInfo` looks each token up under
the previously found descriptor.
-/

/-- The scan of `type_resolution_iterator::Increment`, run to completion over
the whole path: `cur` is the token collected since the last delimiter (in
reverse).  At a `::` the collected token is yielded and the scan restarts
behind the delimiter; at the terminator the final token is yielded only when
it is nonempty (an empty final token leaves the iterator pointer equal to the
token start, so `IsEnd` already holds and the token is never handed to the
resolution loop). -/
def pathTokensAux (cur : List Char) : List Char → List (List Char)
  | [] => if cur.isEmpty then [] else [cur.reverse]
  | [c] => pathTokensAux (c :: cur) []
  | c1 :: c2 :: rest =>
    if c1 = ':' ∧ c2 = ':' then cur.reverse :: pathTokensAux [] rest
    else pathTokensAux (c1 :: cur) (c2 :: rest)

/-- The sequence of tokens the resolution iterator yields before `IsEnd`
becomes true. -/
def pathTokens (s : List Char) : List (List Char) :=
  pathTokensAux [] s

/-- The lookup loop of `ResolveTypeInfo`: find each token under the current
descriptor, stopping with null on the first miss. -/
def resolveLoop (types : List TypeEntry) : List (List Char) → Option Nat → Option Nat
  | [], currentType => currentType
  | tok :: rest, currentType =>
    match FindTypeInfoNolock types tok currentType with
    | none => none
    | some t => resolveLoop types rest (some t)

/-- `ResolveTypeInfo`: split the path and run the lookup loop starting from
`baseTypeInfo`. -/
def ResolveTypeInfo (reg : Registry) (typePath : List Char)
    (baseTypeInfo : Option Nat) : Option Nat :=
  resolveLoop reg.types (pathTokens typePath) baseTypeInfo

/-!
Concrete fixtures used by counterexamples and witnesses.
-/

/-- An abstract descriptor as produced by `RegisterAbstractType` for a
payload struct of size 4 (the spec's `"Shape"` scenario), with no plugins. -/
def shapeLevel : TypeLevel :=
  { tInterface := abstractTypeInterface 4, plugins := [] }

/-- A concrete descriptor level: payload size 8 (by parameters and by
instance) and one well-behaved plugin of size 4 (the spec's `"Base"` /
`"Derived"` layout scenario). -/
def basicLevel : TypeLevel :=
  { tInterface := { constructErr := none, copyConstructErr := none,
                    typeSize := 8, typeSizeByObject := 8 },
    plugins := [{ size := 4, constructOk := true, assignOk := true }] }

/-- Like `basicLevel` but the plugin's constructor fails. -/
def failPluginLevel : TypeLevel :=
  { tInterface := { constructErr := none, copyConstructErr := none,
                    typeSize := 8, typeSizeByObject := 8 },
    plugins := [{ size := 4, constructOk := false, assignOk := true }] }

/-- Like `basicLevel` but the plugin's `assign` fails (clone scenario). -/
def assignFailLevel : TypeLevel :=
  { tInterface := { constructErr := none, copyConstructErr := none,
                    typeSize := 8, typeSizeByObject := 8 },
    plugins := [{ size := 4, constructOk := true, assignOk := false }] }

/-- A registry holding one root descriptor named `A` with id 0. -/
def regA : Registry :=
  { types := [{ id := 0, name := ['A'], parent := none, refCount := 0,
                inheritanceCount := 0, structRegistry := [] }],
    nextId := 1 }

/-- A registry holding one root descriptor named `T` with id 0 — the state
after registering `T` once from the empty registry. -/
def regT : Registry :=
  { types := [{ id := 0, name := ['T'], parent := none, refCount := 0,
                inheritanceCount := 0, structRegistry := [] }],
    nextId := 1 }

/-- A registry holding one referenced (immutable) root descriptor. -/
def regRef : Registry :=
  { types := [{ id := 0, name := ['T'], parent := none, refCount := 1,
                inheritanceCount := 0, structRegistry := [7] }],
    nextId := 1 }

/-!
Helper lemmas about reference counting and event traces.
-/

theorem referenceTypeInfo_eq_map (rs : List Nat) :
    ReferenceTypeInfo rs = rs.map (fun n => n + 1) := by
  induction rs with
  | nil => rfl
  | cons r rest ih => simp [ReferenceTypeInfo, ih]

theorem dereference_reference (rs : List Nat) :
    DereferenceTypeInfo (ReferenceTypeInfo rs) = rs := by
  induction rs with
  | nil => rfl
  | cons r rest ih => simp [ReferenceTypeInfo, DereferenceTypeInfo, ih]

/-- Events emitted by the plugin block operations. -/
def isPluginEvent : Event → Bool
  | Event.pluginConstruct _ _ => true
  | Event.pluginDestruct _ _ => true
  | Event.pluginAssign _ _ => true
  | _ => false

theorem counts_zero_of_pluginOnly (evs : List Event)
    (h : ∀ e ∈ evs, isPluginEvent e = true) :
    allocCount evs = 0 ∧ freeCount evs = 0 := by
  constructor
  · refine List.countP_eq_zero.mpr (fun e he => ?_)
    have := h e he
    cases e <;> simp_all [isPluginEvent]
  · refine List.countP_eq_zero.mpr (fun e he => ?_)
    have := h e he
    cases e <;> simp_all [isPluginEvent]

theorem pluginOnly_ConstructPluginBlockAux (lvl : Nat) :
    ∀ ps i, ∀ e ∈ (ConstructPluginBlockAux lvl i ps).2, isPluginEvent e = true := by
  intro ps
  induction ps with
  | nil => intro i e he; simp [ConstructPluginBlockAux] at he
  | cons p rest ih =>
    intro i e he
    rw [ConstructPluginBlockAux] at he
    by_cases hc : p.constructOk
    · simp only [hc, if_true] at he
      by_cases hr : (ConstructPluginBlockAux lvl (i + 1) rest).1
      · simp only [hr, if_true] at he
        rcases List.mem_cons.mp he with h1 | h2
        · subst h1; rfl
        · exact ih (i + 1) e h2
      · simp only [hr, if_false] at he
        rcases List.mem_cons.mp he with h1 | h2
        · subst h1; rfl
        · rcases List.mem_append.mp h2 with h3 | h4
          · exact ih (i + 1) e h3
          · simp at h4; subst h4; rfl
    · simp [hc] at he

theorem pluginOnly_DestroyPluginBlock (lvl : Nat) (ps : List Plugin) :
    ∀ e ∈ DestroyPluginBlock lvl ps, isPluginEvent e = true := by
  intro e he
  simp only [DestroyPluginBlock, List.mem_map] at he
  obtain ⟨i, _, rfl⟩ := he
  rfl

theorem pluginOnly_DestructPlugins :
    ∀ c : TypeChain, ∀ e ∈ DestructPlugins c, isPluginEvent e = true := by
  intro c
  induction c with
  | nil => intro e he; simp [DestructPlugins] at he
  | cons l rest ih =>
    intro e he
    rw [DestructPlugins] at he
    rcases List.mem_append.mp he with h1 | h2
    · exact pluginOnly_DestroyPluginBlock _ _ e h1
    · exact ih e h2

theorem pluginOnly_ConstructPlugins :
    ∀ c : TypeChain, ∀ e ∈ (ConstructPlugins c).2, isPluginEvent e = true := by
  intro c
  induction c with
  | nil => intro e he; simp [ConstructPlugins] at he
  | cons l rest ih =>
    intro e he
    rw [ConstructPlugins] at he
    by_cases hp : (ConstructPlugins rest).1
    · simp only [hp, if_true] at he
      by_cases hb : (ConstructPluginBlock rest.length l.plugins).1
      · simp only [hb, if_true] at he
        rcases List.mem_append.mp he with h1 | h2
        · exact ih e h1
        · exact pluginOnly_ConstructPluginBlockAux _ _ _ e h2
      · simp only [hb, if_false] at he
        rcases List.mem_append.mp he with h1 | h2
        · rcases List.mem_append.mp h1 with h3 | h4
          · exact ih e h3
          · exact pluginOnly_ConstructPluginBlockAux _ _ _ e h4
        · exact pluginOnly_DestructPlugins _ e h2
    · simp only [hp, if_false] at he
      exact ih e he

@[simp] theorem constructsIn_nil : constructsIn [] = [] := rfl

@[simp] theorem constructsIn_cons_pc (lvl i : Nat) (evs : List Event) :
    constructsIn (Event.pluginConstruct lvl i :: evs) = (lvl, i) :: constructsIn evs := rfl

@[simp] theorem constructsIn_cons_pd (lvl i : Nat) (evs : List Event) :
    constructsIn (Event.pluginDestruct lvl i :: evs) = constructsIn evs := rfl

@[simp] theorem constructsIn_cons_alloc (n : Nat) (evs : List Event) :
    constructsIn (Event.alloc n :: evs) = constructsIn evs := rfl

@[simp] theorem constructsIn_cons_free (evs : List Event) :
    constructsIn (Event.free :: evs) = constructsIn evs := rfl

@[simp] theorem constructsIn_cons_plc (evs : List Event) :
    constructsIn (Event.payloadConstruct :: evs) = constructsIn evs := rfl

@[simp] theorem constructsIn_cons_pld (evs : List Event) :
    constructsIn (Event.payloadDestruct :: evs) = constructsIn evs := rfl

@[simp] theorem destructsIn_nil : destructsIn [] = [] := rfl

@[simp] theorem destructsIn_cons_pc (lvl i : Nat) (evs : List Event) :
    destructsIn (Event.pluginConstruct lvl i :: evs) = destructsIn evs := rfl

@[simp] theorem destructsIn_cons_pd (lvl i : Nat) (evs : List Event) :
    destructsIn (Event.pluginDestruct lvl i :: evs) = (lvl, i) :: destructsIn evs := rfl

@[simp] theorem destructsIn_cons_alloc (n : Nat) (evs : List Event) :
    destructsIn (Event.alloc n :: evs) = destructsIn evs := rfl

@[simp] theorem destructsIn_cons_free (evs : List Event) :
    destructsIn (Event.free :: evs) = destructsIn evs := rfl

@[simp] theorem destructsIn_cons_plc (evs : List Event) :
    destructsIn (Event.payloadConstruct :: evs) = destructsIn evs := rfl

@[simp] theorem destructsIn_cons_pld (evs : List Event) :
    destructsIn (Event.payloadDestruct :: evs) = destructsIn evs := rfl

@[simp] theorem constructsIn_append (a b : List Event) :
    constructsIn (a ++ b) = constructsIn a ++ constructsIn b := by
  simp [constructsIn]

@[simp] theorem destructsIn_append (a b : List Event) :
    destructsIn (a ++ b) = destructsIn a ++ destructsIn b := by
  simp [destructsIn]

@[simp] theorem allocCount_nil : allocCount [] = 0 := rfl

@[simp] theorem allocCount_append (a b : List Event) :
    allocCount (a ++ b) = allocCount a + allocCount b := by
  simp [allocCount, List.countP_append]

@[simp] theorem allocCount_cons_alloc (n : Nat) (evs : List Event) :
    allocCount (Event.alloc n :: evs) = allocCount evs + 1 := by
  simp [allocCount, List.countP_cons]

@[simp] theorem allocCount_cons_free (evs : List Event) :
    allocCount (Event.free :: evs) = allocCount evs := by
  simp [allocCount, List.countP_cons]

@[simp] theorem allocCount_cons_plc (evs : List Event) :
    allocCount (Event.payloadConstruct :: evs) = allocCount evs := by
  simp [allocCount, List.countP_cons]

@[simp] theorem allocCount_cons_pld (evs : List Event) :
    allocCount (Event.payloadDestruct :: evs) = allocCount evs := by
  simp [allocCount, List.countP_cons]

@[simp] theorem freeCount_nil : freeCount [] = 0 := rfl

@[simp] theorem freeCount_append (a b : List Event) :
    freeCount (a ++ b) = freeCount a + freeCount b := by
  simp [freeCount, List.countP_append]

@[simp] theorem freeCount_cons_alloc (n : Nat) (evs : List Event) :
    freeCount (Event.alloc n :: evs) = freeCount evs := by
  simp [freeCount, List.countP_cons]

@[simp] theorem freeCount_cons_free (evs : List Event) :
    freeCount (Event.free :: evs) = freeCount evs + 1 := by
  simp [freeCount, List.countP_cons]

@[simp] theorem freeCount_cons_plc (evs : List Event) :
    freeCount (Event.payloadConstruct :: evs) = freeCount evs := by
  simp [freeCount, List.countP_cons]

@[simp] theorem freeCount_cons_pld (evs : List Event) :
    freeCount (Event.payloadDestruct :: evs) = freeCount evs := by
  simp [freeCount, List.countP_cons]

/-- The plugin identities `(lvl, i), (lvl, i+1), …` of a block of `n` plugins
whose first registration index is `i`. -/
def pairsFrom (lvl : Nat) : Nat → Nat → List (Nat × Nat)
  | _, 0 => []
  | i, n + 1 => (lvl, i) :: pairsFrom lvl (i + 1) n

theorem pairsFrom_eq_range_map (lvl : Nat) :
    ∀ n i, pairsFrom lvl i n = (List.range n).map (fun j => (lvl, i + j)) := by
  intro n
  induction n with
  | zero => intro i; rfl
  | succ m ih =>
    intro i
    rw [pairsFrom, ih (i + 1), List.range_succ_eq_map]
    simp
    intro a _
    omega

theorem block_aux_true (lvl : Nat) :
    ∀ ps i, (ConstructPluginBlockAux lvl i ps).1 = true →
      constructsIn (ConstructPluginBlockAux lvl i ps).2 = pairsFrom lvl i ps.length ∧
      destructsIn (ConstructPluginBlockAux lvl i ps).2 = [] := by
  intro ps
  induction ps with
  | nil => intro i _; exact ⟨rfl, rfl⟩
  | cons p rest ih =>
    intro i h
    by_cases hc : p.constructOk = true
    · cases hr : ConstructPluginBlockAux lvl (i + 1) rest with
      | mk rb revs =>
        cases rb with
        | false =>
          rw [ConstructPluginBlockAux] at h
          simp [hc, hr] at h
        | true =>
          obtain ⟨ihc, ihd⟩ := ih (i + 1) (by rw [hr])
          rw [hr] at ihc ihd
          simp only at ihc ihd
          rw [ConstructPluginBlockAux]
          simp [hc, hr, pairsFrom, ihc, ihd]
    · rw [ConstructPluginBlockAux] at h
      simp [hc] at h

theorem block_aux_false (lvl : Nat) :
    ∀ ps i, (ConstructPluginBlockAux lvl i ps).1 = false →
      destructsIn (ConstructPluginBlockAux lvl i ps).2 =
        (constructsIn (ConstructPluginBlockAux lvl i ps).2).reverse := by
  intro ps
  induction ps with
  | nil => intro i h; simp [ConstructPluginBlockAux] at h
  | cons p rest ih =>
    intro i h
    by_cases hc : p.constructOk = true
    · cases hr : ConstructPluginBlockAux lvl (i + 1) rest with
      | mk rb revs =>
        cases rb with
        | true =>
          rw [ConstructPluginBlockAux] at h
          simp [hc, hr] at h
        | false =>
          have ihr := ih (i + 1) (by rw [hr])
          rw [hr] at ihr
          simp only at ihr
          rw [ConstructPluginBlockAux]
          simp [hc, hr, ihr]
    · rw [ConstructPluginBlockAux]
      simp [hc]

theorem destroy_block_destructs (lvl : Nat) (ps : List Plugin) :
    destructsIn (DestroyPluginBlock lvl ps) = (pairsFrom lvl 0 ps.length).reverse := by
  rw [pairsFrom_eq_range_map]
  simp only [DestroyPluginBlock]
  rw [← List.map_reverse]
  induction (List.range ps.length).reverse with
  | nil => rfl
  | cons j t ih => simp [ih]

theorem destroy_block_constructs (lvl : Nat) (ps : List Plugin) :
    constructsIn (DestroyPluginBlock lvl ps) = [] := by
  simp only [DestroyPluginBlock]
  induction (List.range ps.length).reverse with
  | nil => rfl
  | cons j t ih => simp [ih]

theorem constructsIn_DestructPlugins (c : TypeChain) :
    constructsIn (DestructPlugins c) = [] := by
  induction c with
  | nil => rfl
  | cons l rest ih =>
    rw [DestructPlugins, constructsIn_append, ih, destroy_block_constructs]
    rfl

theorem construct_plugins_true_spec :
    ∀ c : TypeChain, (ConstructPlugins c).1 = true →
      destructsIn (ConstructPlugins c).2 = [] ∧
      destructsIn (DestructPlugins c) = (constructsIn (ConstructPlugins c).2).reverse := by
  intro c
  induction c with
  | nil => intro _; exact ⟨rfl, rfl⟩
  | cons l rest ih =>
    intro h
    rw [ConstructPlugins] at h ⊢
    rw [DestructPlugins]
    cases hp : ConstructPlugins rest with
    | mk pok pevs =>
      cases pok with
      | false => simp [hp] at h
      | true =>
        obtain ⟨ihd, ihr⟩ := ih (by rw [hp])
        rw [hp] at ihd ihr
        simp only at ihd ihr
        cases hb : ConstructPluginBlock rest.length l.plugins with
        | mk bok bevs =>
          cases bok with
          | false => simp [hp, hb] at h
          | true =>
            obtain ⟨bc, bd⟩ := block_aux_true rest.length l.plugins 0 (by
              rw [← ConstructPluginBlock, hb])
            rw [← ConstructPluginBlock, hb] at bc bd
            simp only at bc bd
            simp only [hp, hb]
            refine ⟨by simp [ihd, bd], ?_⟩
            simp only [destructsIn_append, constructsIn_append, List.reverse_append, ihr,
                destroy_block_destructs, bc, ihd]
            simp [bc]

theorem construct_plugins_false_spec :
    ∀ c : TypeChain, (ConstructPlugins c).1 = false →
      destructsIn (ConstructPlugins c).2 = (constructsIn (ConstructPlugins c).2).reverse := by
  intro c
  induction c with
  | nil => intro h; simp [ConstructPlugins] at h
  | cons l rest ih =>
    intro h
    rw [ConstructPlugins] at h ⊢
    cases hp : ConstructPlugins rest with
    | mk pok pevs =>
      cases pok with
      | false =>
        have ihf := ih (by rw [hp])
        rw [hp] at ihf
        simp only at ihf
        simp [hp, ihf]
      | true =>
        obtain ⟨ptd, ptr⟩ := construct_plugins_true_spec rest (by rw [hp])
        rw [hp] at ptd ptr
        simp only at ptd ptr
        cases hb : ConstructPluginBlock rest.length l.plugins with
        | mk bok bevs =>
          cases bok with
          | true => simp [hp, hb] at h
          | false =>
            have bf := block_aux_false rest.length l.plugins 0 (by
              rw [← ConstructPluginBlock, hb])
            rw [← ConstructPluginBlock, hb] at bf
            simp only at bf
            simp [hp, hb, ptd, ptr, bf, constructsIn_DestructPlugins, List.reverse_append]

theorem counts_ConstructPlugins (c : TypeChain) :
    allocCount (ConstructPlugins c).2 = 0 ∧ freeCount (ConstructPlugins c).2 = 0 :=
  counts_zero_of_pluginOnly _ (pluginOnly_ConstructPlugins c)

theorem counts_DestructPlugins (c : TypeChain) :
    allocCount (DestructPlugins c) = 0 ∧ freeCount (DestructPlugins c) = 0 :=
  counts_zero_of_pluginOnly _ (pluginOnly_DestructPlugins c)

theorem construct_placement_success (l : TypeLevel) (anc : TypeChain) (refs : List Nat)
    (h : (ConstructPlacement l anc refs).obj = true) :
    (ConstructPlacement l anc refs).refs = ReferenceTypeInfo refs ∧
    allocCount (ConstructPlacement l anc refs).events = 0 ∧
    freeCount (ConstructPlacement l anc refs).events = 0 := by
  rw [ConstructPlacement] at h ⊢
  cases hce : l.tInterface.constructErr with
  | some e => simp [hce] at h
  | none =>
    simp only [hce] at h ⊢
    cases hcp : ConstructPlugins (l :: anc) with
    | mk cok cevs =>
      obtain ⟨ca, cf⟩ := counts_ConstructPlugins (l :: anc)
      rw [hcp] at ca cf h
      simp only at ca cf
      cases cok with
      | false => simp at h
      | true => simp [ca, cf]

theorem construct_placement_fail (l : TypeLevel) (anc : TypeChain) (refs : List Nat)
    (h : (ConstructPlacement l anc refs).obj = false) :
    (ConstructPlacement l anc refs).refs = refs ∧
    destructsIn (ConstructPlacement l anc refs).events =
      (constructsIn (ConstructPlacement l anc refs).events).reverse ∧
    allocCount (ConstructPlacement l anc refs).events = 0 ∧
    freeCount (ConstructPlacement l anc refs).events = 0 := by
  rw [ConstructPlacement] at h ⊢
  cases hce : l.tInterface.constructErr with
  | some e => simp [hce, dereference_reference]
  | none =>
    simp only [hce] at h ⊢
    cases hcp : ConstructPlugins (l :: anc) with
    | mk cok cevs =>
      obtain ⟨ca, cf⟩ := counts_ConstructPlugins (l :: anc)
      rw [hcp] at ca cf h
      simp only at ca cf
      cases cok with
      | true => simp at h
      | false =>
        have hrev := construct_plugins_false_spec (l :: anc) (by rw [hcp])
        rw [hcp] at hrev
        simp only at hrev
        simp [dereference_reference, hrev, ca, cf]

/-- Claim C4 — For every failed `Construct`, whatever the cause (zero struct
size, allocation failure, payload-construction failure, or plugin-construction
failure at any level): the recorded plugin destructor calls are exactly the
recorded plugin constructor calls in reverse (so no plugin constructor remains
un-destructed), the number of allocations equals the number of frees, and the
reference counts of the target descriptor and of every ancestor are unchanged
from before the call. -/
theorem construct_failure_full_unwind (allocOk : Bool) (l : TypeLevel) (anc : TypeChain)
    (refs : List Nat) (r : ConstructResult)
    (h : Construct allocOk l anc refs = Except.ok r) (hobj : r.obj = false) :
    destructsIn r.events = (constructsIn r.events).reverse ∧
    allocCount r.events = freeCount r.events ∧
    r.refs = refs := by
  rw [Construct] at h
  by_cases hsz : GetTypeStructSize (l :: anc) ≠ 0
  · rw [if_pos hsz] at h
    cases allocOk with
    | false =>
      simp only [Bool.false_eq_true, if_false, Except.ok.injEq] at h
      subst h
      simp [dereference_reference]
    | true =>
      cases hcp : ConstructPlacement l anc (ReferenceTypeInfo refs) with
      | mk o rr ev =>
        rw [hcp] at h
        cases o with
        | true =>
          simp at h
          subst h
          simp at hobj
        | false =>
          obtain ⟨f1, f2, f3, f4⟩ :=
            construct_placement_fail l anc (ReferenceTypeInfo refs) (by rw [hcp])
          rw [hcp] at f1 f2 f3 f4
          simp only at f1 f2 f3 f4
          simp at h
          subst h
          subst f1
          simp [f2, f3, f4, dereference_reference]
  · rw [if_neg hsz] at h
    simp only [Except.ok.injEq] at h
    subst h
    simp [dereference_reference]

/-- Witness for claim C4 at a concrete input: a one-level descriptor whose
only plugin fails construction. -/
theorem construct_failure_full_unwind_witness :
    destructsIn [Event.alloc 20, Event.payloadConstruct, Event.payloadDestruct,
        Event.free] =
      (constructsIn [Event.alloc 20, Event.payloadConstruct, Event.payloadDestruct,
        Event.free]).reverse ∧
    allocCount [Event.alloc 20, Event.payloadConstruct, Event.payloadDestruct,
        Event.free] =
      freeCount [Event.alloc 20, Event.payloadConstruct, Event.payloadDestruct,
        Event.free] ∧
    ([0] : List Nat) = [0] :=
  construct_failure_full_unwind true failPluginLevel [] [0]
    { obj := false, refs := [0],
      events := [Event.alloc 20, Event.payloadConstruct, Event.payloadDestruct,
                 Event.free] }
    (by rfl) (by rfl)

/-- Claim C5 — For every successful `Construct` of a descriptor with its
ancestor chain, the reference count of the leaf and of every ancestor is
exactly one higher than before while the instance is alive, and after the
matching `Destroy` every reference count in the chain is back to its original
value; the allocation made by the construct is balanced by the free of the
destroy. -/
theorem construct_destroy_refcount_balance (l : TypeLevel) (anc : TypeChain)
    (refs : List Nat) (r : ConstructResult)
    (h : Construct true l anc refs = Except.ok r) (hobj : r.obj = true) :
    r.refs = refs.map (fun n => n + 1) ∧
    (Destroy l anc r.refs).refs = refs ∧
    allocCount (r.events ++ (Destroy l anc r.refs).events) =
      freeCount (r.events ++ (Destroy l anc r.refs).events) := by
  rw [Construct] at h
  by_cases hsz : GetTypeStructSize (l :: anc) ≠ 0
  · rw [if_pos hsz] at h
    cases hcp : ConstructPlacement l anc (ReferenceTypeInfo refs) with
    | mk o rr ev =>
      rw [hcp] at h
      cases o with
      | false =>
        simp at h
        subst h
        simp at hobj
      | true =>
        obtain ⟨s1, s2, s3⟩ :=
          construct_placement_success l anc (ReferenceTypeInfo refs) (by rw [hcp])
        rw [hcp] at s1 s2 s3
        simp only at s1 s2 s3
        simp at h
        subst h
        subst s1
        obtain ⟨da, df⟩ := counts_DestructPlugins (l :: anc)
        refine ⟨by rw [dereference_reference, referenceTypeInfo_eq_map], ?_, ?_⟩
        · simp [Destroy, DestroyPlacement, dereference_reference]
        · simp [Destroy, DestroyPlacement, s2, s3, da, df]
  · rw [if_neg hsz] at h
    simp only [Except.ok.injEq] at h
    subst h
    simp at hobj

/-- Witness for claim C5: the spec's scenario S3, a three-level chain
`A ← B ← C` with all counts zero before the construct; they are all one while
the instance lives and all zero after the destroy. -/
theorem construct_destroy_refcount_balance_witness :
    ([1, 1, 1] : List Nat) = ([0, 0, 0] : List Nat).map (fun n => n + 1) ∧
    (Destroy basicLevel [basicLevel, basicLevel] [1, 1, 1]).refs = [0, 0, 0] ∧
    allocCount
        ([Event.alloc 28, Event.payloadConstruct, Event.pluginConstruct 0 0,
          Event.pluginConstruct 1 0, Event.pluginConstruct 2 0] ++
          (Destroy basicLevel [basicLevel, basicLevel] [1, 1, 1]).events) =
      freeCount
        ([Event.alloc 28, Event.payloadConstruct, Event.pluginConstruct 0 0,
          Event.pluginConstruct 1 0, Event.pluginConstruct 2 0] ++
          (Destroy basicLevel [basicLevel, basicLevel] [1, 1, 1]).events) :=
  construct_destroy_refcount_balance basicLevel [basicLevel, basicLevel] [0, 0, 0]
    { obj := true, refs := [1, 1, 1],
      events := [Event.alloc 28, Event.payloadConstruct, Event.pluginConstruct 0 0,
                 Event.pluginConstruct 1 0, Event.pluginConstruct 2 0] }
    (by rfl) (by rfl)

/-- Claim C1 counterexample — constructing the abstract `"Shape"` descriptor
does not propagate `AbstractConstruction` to the caller: `ConstructPlacement`
catches the payload-constructor exception and `Construct` returns a null
object result after freeing the memory, with the reference counts
unchanged. -/
theorem abstract_construct_returns_null :
    Construct true shapeLevel [] [0] ≠ Except.error DtsError.AbstractConstruction ∧
    Construct true shapeLevel [] [0] =
      Except.ok { obj := false, refs := [0],
                  events := [Event.alloc 12, Event.free] } := by
  refine ⟨?_, rfl⟩
  intro hc
  rw [show Construct true shapeLevel [] [0] =
      Except.ok { obj := false, refs := [0],
                  events := [Event.alloc 12, Event.free] } from rfl] at hc
  exact Except.noConfusion hc

/-- Claim C1 (amended) — For every descriptor whose payload constructor fails
during `Construct` (including abstract descriptors, whose vtable throws
`AbstractConstruction`), the exception is caught inside the placement
construct: the call returns a null object (`Except.ok` with `obj = false`)
rather than propagating the error, the memory is freed (the trace is the
balanced `[alloc, free]` when an allocation happened, empty otherwise) and
the descriptor chain's reference counts are unchanged. -/
theorem payload_construct_failure_caught_cleanly (allocOk : Bool) (l : TypeLevel)
    (anc : TypeChain) (refs : List Nat) (e : DtsError)
    (h : l.tInterface.constructErr = some e) :
    Construct allocOk l anc refs =
      Except.ok { obj := false, refs := refs,
                  events := if GetTypeStructSize (l :: anc) ≠ 0 ∧ allocOk = true then
                      [Event.alloc (GetTypeStructSize (l :: anc)), Event.free]
                    else [] } := by
  have key : ConstructPlacement l anc (ReferenceTypeInfo refs) =
      { obj := false, refs := ReferenceTypeInfo refs, events := [] } := by
    rw [ConstructPlacement, h]
    simp [dereference_reference]
  by_cases hsz : GetTypeStructSize (l :: anc) ≠ 0
  · cases allocOk with
    | true =>
      simp only [Construct]
      rw [key]
      simp [hsz, dereference_reference]
    | false =>
      simp only [Construct]
      simp [hsz, dereference_reference]
  · simp only [Construct]
    simp [hsz, dereference_reference]

/-- Witness for claim C1 at the abstract `"Shape"` descriptor. -/
theorem payload_construct_failure_caught_cleanly_witness :
    Construct true shapeLevel [] [0] =
      Except.ok { obj := false, refs := [0],
                  events := [Event.alloc 12, Event.free] } := by
  have h := payload_construct_failure_caught_cleanly true shapeLevel [] [0]
    DtsError.AbstractConstruction rfl
  exact h

/-- Claim C2 (code-bug evaluation) — cloning an object whose single plugin
constructs successfully but fails `assign`: the clone aborts and returns null,
the payload is destructed, the memory is freed and the chain is unreferenced,
but the constructed plugin is never destructed — the trace contains its
`pluginConstruct` and no matching `pluginDestruct`, contrary to the claimed
unwinding policy. -/
theorem clone_assign_failure_skips_plugin_destructors :
    Clone true assignFailLevel [] [1] =
      Except.ok { obj := false, refs := [1],
                  events := [Event.alloc 20, Event.payloadConstruct,
                             Event.pluginConstruct 0 0, Event.pluginAssign 0 0,
                             Event.payloadDestruct, Event.free] } ∧
    Event.pluginConstruct 0 0 ∈
      [Event.alloc 20, Event.payloadConstruct, Event.pluginConstruct 0 0,
       Event.pluginAssign 0 0, Event.payloadDestruct, Event.free] ∧
    Event.pluginDestruct 0 0 ∉
      [Event.alloc 20, Event.payloadConstruct, Event.pluginConstruct 0 0,
       Event.pluginAssign 0 0, Event.payloadDestruct, Event.free] :=
  ⟨rfl, by decide, by decide⟩

theorem getTypePluginSize_eq_sum (c : TypeChain) :
    GetTypePluginSize c = (c.map (fun t => pluginBlockSize t.plugins)).sum := by
  induction c with
  | nil => rfl
  | cons x xs ih => simp [GetTypePluginSize, ih]

/-- Claim C6 — For every descriptor chain, when the payload size reported by
the vtable is nonzero, `GetTypeStructSize` equals the header size plus the
payload size plus the sum of the plugin-block sizes of the descriptor and all
its ancestors; and it is zero whenever the payload size is zero. -/
theorem type_struct_size_formula (l : TypeLevel) (anc : TypeChain) :
    (l.tInterface.typeSize ≠ 0 →
      GetTypeStructSize (l :: anc) =
        sizeofGenericRTTI + l.tInterface.typeSize +
          ((l :: anc).map (fun t => pluginBlockSize t.plugins)).sum) ∧
    (l.tInterface.typeSize = 0 → GetTypeStructSize (l :: anc) = 0) := by
  constructor
  · intro hne
    rw [GetTypeStructSize]
    simp only [hne, if_true, ne_eq, not_false_iff]
    rw [getTypePluginSize_eq_sum]
    omega
  · intro h0
    rw [GetTypeStructSize]
    simp [h0]

/-- Witness for claim C6: the spec's layout scenario S2 — header 8, payload 8,
one plugin of size 4 on each of the two levels gives 24. -/
theorem type_struct_size_formula_witness :
    GetTypeStructSize [basicLevel, basicLevel] =
      sizeofGenericRTTI + basicLevel.tInterface.typeSize +
        (([basicLevel, basicLevel] : TypeChain).map
          (fun t => pluginBlockSize t.plugins)).sum ∧
    GetTypeStructSize [basicLevel, basicLevel] = 24 :=
  ⟨(type_struct_size_formula basicLevel [basicLevel]).1 (by decide), rfl⟩

/-- Claim C9 — converting an object header to its payload pointer and back
yields the original header pointer. -/
theorem object_payload_roundtrip (o : Nat) :
    GetTypeStructFromObject (GetObjectFromTypeStruct o) = o := by
  simp [GetObjectFromTypeStruct, GetTypeStructFromObject]

/-- Claim C10 — `IsTypeInheritingFrom` is reflexive: every registered type is
inheriting from itself, through the `IsSameType` check performed before the
chain walk. -/
theorem inheritance_reflexive (t : TypeChain) :
    IsTypeInheritingFrom t t = true := by
  cases t with
  | nil => simp [IsTypeInheritingFrom, IsSameType]
  | cons l rest => simp [IsTypeInheritingFrom, IsSameType]

/-- Claim C7 — registering a type whose name equals that of an
already-registered descriptor under the same parent fails with
`NameConflict`, the partially built descriptor is freed (the allocation trace
of the call is balanced), the registry is unchanged — the previously
registered descriptor remains present and the iterator yields exactly the
previously registered descriptors. -/
theorem register_type_name_conflict (reg : Registry) (typeName : List Char)
    (inheritsFrom : Option Nat)
    (h : (FindTypeInfoNolock reg.types typeName inheritsFrom).isSome = true) :
    RegisterType reg typeName inheritsFrom =
      (Except.error DtsError.NameConflict, reg,
       [AEvent.allocInfo reg.nextId, AEvent.freeInfo reg.nextId]) ∧
    GetTypeIterator (RegisterType reg typeName inheritsFrom).2.1 = GetTypeIterator reg := by
  obtain ⟨x, hx⟩ := Option.isSome_iff_exists.mp h
  have hset : SetupTypeInfoBase reg reg.nextId typeName inheritsFrom =
      Except.error DtsError.NameConflict := by
    rw [SetupTypeInfoBase, hx]
  constructor
  · rw [RegisterType, hset]
  · rw [RegisterType, hset]

/-- Witness for claim C7: the spec's scenario S1 — registering `"T"` under
the null parent twice; the second call fails with `NameConflict` and the
registry still holds exactly the first descriptor. -/
theorem register_type_name_conflict_witness :
    RegisterType regT ['T'] none =
      (Except.error DtsError.NameConflict, regT,
       [AEvent.allocInfo 1, AEvent.freeInfo 1]) ∧
    RegisterType { types := [], nextId := 0 } ['T'] none =
      (Except.ok 0, regT, [AEvent.allocInfo 0]) := by
  constructor
  · exact (register_type_name_conflict regT ['T'] none (by decide)).1
  · rfl

/-- Claim C8 — For every registered descriptor with `refCount > 0`,
registering a plugin on it, unregistering a plugin from it, and re-parenting
it all fail the not-immutable assertion, modelled as the `InvariantBreach`
error; and whenever `refCount = 0` the assertion `IsImmutable = false`
holds. -/
theorem immutable_descriptor_mutation_breach (reg : Registry)
    (tid pluginSize pluginOffset : Nat) (newParent : Option Nat) (e : TypeEntry)
    (h : lookupType reg tid = some e) :
    (e.refCount ≠ 0 →
      RegisterPlugin reg pluginSize tid = Except.error DtsError.InvariantBreach ∧
      UnregisterPlugin reg tid pluginOffset = Except.error DtsError.InvariantBreach ∧
      SetTypeInfoInheritingClass reg tid newParent =
        Except.error DtsError.InvariantBreach) ∧
    (e.refCount = 0 → IsImmutable e = false) := by
  constructor
  · intro hrc
    have him : IsImmutable e = true := by simp [IsImmutable, hrc]
    refine ⟨?_, ?_, ?_⟩
    · rw [RegisterPlugin, h]
      simp [him]
    · rw [UnregisterPlugin, h]
      simp [him]
    · rw [SetTypeInfoInheritingClass, h]
      simp [him]
  · intro h0
    simp [IsImmutable, h0]

/-- Witness for claim C8 at a registry with one referenced descriptor. -/
theorem immutable_descriptor_mutation_breach_witness :
    RegisterPlugin regRef 4 0 = Except.error DtsError.InvariantBreach ∧
    UnregisterPlugin regRef 0 0 = Except.error DtsError.InvariantBreach ∧
    SetTypeInfoInheritingClass regRef 0 none =
      Except.error DtsError.InvariantBreach :=
  (immutable_descriptor_mutation_breach regRef 0 4 0 none
    { id := 0, name := ['T'], parent := none, refCount := 1,
      inheritanceCount := 0, structRegistry := [7] }
    (by decide)).1 (by decide)

/-- Claim C3 counterexample — with `"A"` registered under the null parent,
resolving the path `"A::"` (which ends in the two-byte delimiter) returns the
descriptor `A`, not null: the trailing empty token is discarded by the
iterator.  Likewise, resolving the empty path against the non-null base `A`
returns `A`, not null. -/
theorem resolve_boundary_counterexample :
    ResolveTypeInfo regA ['A', ':', ':'] none = some 0 ∧
    ResolveTypeInfo regA [] (some 0) = some 0 :=
  ⟨rfl, rfl⟩

theorem pathTokensAux_colonfree (rem : List Char) :
    ∀ cur : List Char, ':' ∉ rem → cur.reverse ++ rem ≠ [] →
      pathTokensAux cur rem = [cur.reverse ++ rem] := by
  induction rem with
  | nil =>
    intro cur _ hne
    rw [pathTokensAux]
    have : ¬cur.isEmpty = true := by
      cases cur with
      | nil => simp at hne
      | cons a t => simp
    simp [this]
  | cons c rest ih =>
    intro cur hnc hne
    cases rest with
    | nil =>
      rw [pathTokensAux, pathTokensAux]
      have : ¬(c :: cur).isEmpty = true := by simp
      simp [this]
    | cons d t =>
      rw [pathTokensAux]
      have hcne : ¬(c = ':' ∧ d = ':') := by
        intro hcd
        exact hnc (by simp [hcd.1])
      rw [if_neg hcne]
      have := ih (c :: cur) (fun hm => hnc (List.mem_cons_of_mem c hm)) (by simp)
      rw [this]
      simp

theorem pathTokensAux_colonfree_delim (rem : List Char) :
    ∀ cur : List Char, ':' ∉ rem →
      pathTokensAux cur (rem ++ [':', ':']) = [cur.reverse ++ rem] := by
  induction rem with
  | nil =>
    intro cur _
    rw [List.nil_append, pathTokensAux]
    simp [pathTokensAux]
  | cons c rest ih =>
    intro cur hnc
    rw [List.cons_append]
    cases hre : rest ++ [':', ':'] with
    | nil => simp at hre
    | cons d t =>
      rw [pathTokensAux]
      have hcne : ¬(c = ':' ∧ d = ':') := by
        intro hcd
        exact hnc (by simp [hcd.1])
      rw [if_neg hcne, ← hre]
      have := ih (c :: cur) (fun hm => hnc (List.mem_cons_of_mem c hm))
      rw [this]
      simp

/-- Claim C3 (amended) — resolve applied to the empty path returns the base
argument unchanged (null exactly when the base is null); and for a path
consisting of a nonempty colon-free name followed by the two-byte delimiter
`::`, the trailing delimiter contributes no token: the path resolves exactly
as the bare name does. -/
theorem resolve_empty_and_trailing_delim (reg : Registry) (base : Option Nat)
    (s : List Char) (hne : s ≠ []) (hnc : ':' ∉ s) :
    ResolveTypeInfo reg [] base = base ∧
    ResolveTypeInfo reg (s ++ [':', ':']) base = ResolveTypeInfo reg s base := by
  constructor
  · rfl
  · rw [ResolveTypeInfo, ResolveTypeInfo, pathTokens, pathTokens,
        pathTokensAux_colonfree_delim s [] hnc,
        pathTokensAux_colonfree s [] hnc (by simpa using hne)]

/-- Witness for claim C3: the registry holding `"A"`; the empty path resolves
to the base and `"A::"` resolves exactly as `"A"` does. -/
theorem resolve_empty_and_trailing_delim_witness :
    ResolveTypeInfo regA [] (some 0) = some 0 ∧
    ResolveTypeInfo regA (['A'] ++ [':', ':']) none = ResolveTypeInfo regA ['A'] none :=
  ⟨(resolve_empty_and_trailing_delim regA (some 0) ['A'] (by decide) (by decide)).1,
   (resolve_empty_and_trailing_delim regA none ['A'] (by decide) (by decide)).2⟩

end DTS
